import Mathlib

/-!
Verification of the VRChat-status Telegram bot (`src/main.py`) against its
natural-language specification.  The poller loop (`status_checker_loop`),
the one-shot status command (`check_status_blocking`) and the heartbeat
loop (`heartbeat_loop`) are embedded as pure Lean functions over explicit
inputs: the configuration read on a tick, the outcome of the single HTTP
fetch, the resolved notification target and whether the Telegram send
raises.  Each tick returns its effect on the `_last_state` register
together with the ordered list of observable events (log lines, message
sends, register writes, sleeps) the Python code performs.
-/

/-- JSON body of a response from the users endpoint; each of the three
fields the program reads may be absent, mirroring `dict.get`. -/
structure ApiJson where
  displayName : Option String
  state : Option String
  status : Option String
deriving Repr, DecidableEq

/-- Outcome of one HTTP fetch: a response with a status code, parsed JSON
body and raw text, or a raised exception (transport failure etc.),
carrying the exception text. -/
inductive FetchResult where
  | ok (code : Nat) (body : ApiJson) (text : String)
  | exn (e : String)
deriving Repr, DecidableEq

/-- Observable events of one loop iteration, in program order. -/
inductive Event where
  | fetchAttempt
  | logDebug (m : String)
  | logInfo (m : String)
  | logWarning (m : String)
  | logException (m : String)
  | sendMessage (target : Int) (m : String)
  | setLastState (s : Option String)
  | sleep (secs : Nat)
deriving Repr, DecidableEq

/-- Python truthiness of an optional string: `None` and `""` are falsy. -/
def strFalsy : Option String → Bool
  | none => true
  | some s => s.isEmpty

/-- Python `f"{x}"` on an `Optional[str]`: `None` prints as `"None"`. -/
def pyShowOpt : Option String → String
  | none => "None"
  | some s => s

/-- Truncation of the 403 response body before logging
(`(r.text[:1000] + '...') if len(r.text) > 1000 else r.text`). -/
def truncate403 (text : String) : String :=
  if text.length > 1000 then text.take 1000 ++ "..." else text

/-- The operator-facing warning sent to Telegram on a 403 response. -/
def warn403Msg : String :=
  "VRChat API вернул 403 — проверь User-Agent (должны быть app name/version/contact)."

/-- One iteration of `status_checker_loop` (src/main.py lines 342-399).
Inputs: the configured poll interval, the tracked user id and cookies read
on this tick, the fetch outcome, the resolved target chat, whether
`bot.send_message` raises, and the value of `_last_state` before the tick.
Returns the value of `_last_state` after the tick and the event trace. -/
def status_checker_tick (pollInterval : Nat) (uid : Option String)
    (cookies : List (String × String)) (fetch : FetchResult)
    (tgt : Option Int) (sendFails : Bool) (prev : Option String) :
    Option String × List Event :=
  if strFalsy uid || cookies.isEmpty then
    (prev, [.logDebug "No user_id or cookies yet; sleeping", .sleep 5])
  else
    match fetch with
    | .exn _ =>
        (prev, [.fetchAttempt, .logException "Exception in status_checker_loop",
                .sleep pollInterval])
    | .ok code body text =>
        if code = 403 then
          (prev,
            [.fetchAttempt,
             .logWarning ("VRChat API response 403: " ++ truncate403 text)] ++
            (match tgt with
             | some t =>
                 if sendFails then
                   [.sendMessage t warn403Msg,
                    .logException "Не удалось отправить предупреждение в Telegram"]
                 else [.sendMessage t warn403Msg]
             | none => []) ++
            [.sleep pollInterval])
        else if code = 200 then
          let current := body.state
          if current ≠ prev then
            let msg :=
              if current = some "online" then
                "Игрок теперь ONLINE!\nИмя: " ++ body.displayName.getD (uid.getD "") ++
                  "\nСтатус: " ++ body.status.getD ""
              else
                "Игрок теперь OFFLINE (state=" ++ pyShowOpt current ++ ")"
            (current,
              [.fetchAttempt,
               .logInfo ("State changed: " ++ pyShowOpt prev ++ " -> " ++ pyShowOpt current)] ++
              (match tgt with
               | some t =>
                   if sendFails then
                     [.sendMessage t msg, .logException "Failed to send TG message"]
                   else [.sendMessage t msg]
               | none => [.logInfo ("No target chat set; would send: " ++ msg)]) ++
              [.setLastState current, .sleep pollInterval])
          else
            (prev, [.fetchAttempt, .sleep pollInterval])
        else
          (prev,
            [.fetchAttempt,
             .logWarning ("VRChat API response " ++ toString code ++ ": " ++ text.take 300),
             .sleep pollInterval])

/-- Result of `check_status_blocking`: the returned string plus whether a
network fetch was performed. -/
structure CheckOutcome where
  message : String
  fetchPerformed : Bool
deriving Repr, DecidableEq

/-- `check_status_blocking` (src/main.py lines 306-331): the one-shot
synchronous check behind the /status command. -/
def check_status_blocking (uid : Option String)
    (cookies : List (String × String)) (fetch : FetchResult) : CheckOutcome :=
  if strFalsy uid then
    { message := "User ID не задан. Используй /set_user_id <id>", fetchPerformed := false }
  else if cookies.isEmpty then
    { message := "Cookies не найдены. Задай /start_cookies ... /end_cookies или загрузите файл."
      fetchPerformed := false }
  else
    match fetch with
    | .exn e =>
        { message := "Исключение при обращении к API: " ++ e, fetchPerformed := true }
    | .ok code body text =>
        if code ≠ 200 then
          { message := "Ошибка API " ++ toString code ++ ": " ++ text.take 400
            fetchPerformed := true }
        else
          { message := "User " ++ body.displayName.getD "N/A" ++ " (" ++ uid.getD "" ++
              "): state=" ++ body.state.getD "unknown" ++ ", status=" ++ body.status.getD ""
            fetchPerformed := true }

/-- One iteration of `heartbeat_loop` (src/main.py lines 406-422).
`sendErr` is `some e` when `bot.send_message` raises with text `e`. -/
def heartbeat_tick (pingInterval : Nat) (tgt : Option Int)
    (sendErr : Option String) (now : String) : List Event :=
  let msg := "?? Heartbeat: бот активен, проверка выполняется. (" ++ now ++ ")"
  [.logInfo msg] ++
  (match tgt with
   | some t =>
       match sendErr with
       | some e =>
           [.sendMessage t msg,
            .logWarning ("Не удалось отправить heartbeat в Telegram: " ++ e)]
       | none => [.sendMessage t msg]
   | none => []) ++
  [.sleep pingInterval]

/-- Repeated iterations of the heartbeat loop: one event trace per
iteration, driven by a list of (send outcome, timestamp) pairs. -/
def heartbeat_run (pingInterval : Nat) (tgt : Option Int) :
    List (Option String × String) → List (List Event)
  | [] => []
  | (err, now) :: rest =>
      heartbeat_tick pingInterval tgt err now :: heartbeat_run pingInterval tgt rest

/-- Messages handed to `bot.send_message` within an event trace. -/
def sentMessages : List Event → List String
  | [] => []
  | .sendMessage _ m :: r => m :: sentMessages r
  | _ :: r => sentMessages r

/-- Sleep durations occurring in an event trace. -/
def sleepsOf : List Event → List Nat
  | [] => []
  | .sleep n :: r => n :: sleepsOf r
  | _ :: r => sleepsOf r

/-- Whether an event is a Telegram message send. -/
def isSend : Event → Bool
  | .sendMessage _ _ => true
  | _ => false

/-- Whether an event is a write to the `_last_state` register. -/
def isSetState : Event → Bool
  | .setLastState _ => true
  | _ => false

/-- Index of the first event satisfying `p`, counting from `n`. -/
def firstIdx (p : Event → Bool) : List Event → Nat → Option Nat
  | [], _ => none
  | e :: r, n => if p e then some n else firstIdx p r (n + 1)

/-- The spec's ordering claim as a predicate on a trace: the register
write occurs strictly before the message send (vacuously true when either
is absent). -/
def setBeforeSendB (evs : List Event) : Bool :=
  match firstIdx isSetState evs 0, firstIdx isSend evs 0 with
  | some i, some j => decide (i < j)
  | _, _ => true

/-- The code's actual ordering as a predicate on a trace: the message send
occurs strictly before the register write. -/
def sendBeforeSetB (evs : List Event) : Bool :=
  match firstIdx isSend evs 0, firstIdx isSetState evs 0 with
  | some i, some j => decide (i < j)
  | _, _ => false

/-- Boolean prefix test on character lists. -/
def listPrefixOf : List Char → List Char → Bool
  | [], _ => true
  | _ :: _, [] => false
  | a :: as, b :: bs => a == b && listPrefixOf as bs

/-- Boolean infix test on character lists. -/
def listInfixB (needle : List Char) : List Char → Bool
  | [] => needle.isEmpty
  | c :: t => listPrefixOf needle (c :: t) || listInfixB needle t

/-- Substring test: `needle` occurs somewhere in `hay`. -/
def strContains (hay needle : String) : Bool :=
  listInfixB needle.data hay.data

/-- Cookie set used for the concrete poller runs: one auth cookie. -/
def cfgCookies : List (String × String) := [("auth", "authcookie_x")]

/-- A successful fetch (HTTP 200) whose body carries only the `state`
field with value `s`. -/
def pollOk (s : String) : FetchResult := .ok 200 ⟨none, some s, none⟩ ""

/-- What one poller tick did: whether a state-change message was handed to
the Telegram sender, and the register value after the tick. -/
structure TickRecord where
  notified : Bool
  registerAfter : Option String
deriving Repr, DecidableEq

/-- Run the poller over a sequence of successfully fetched states,
starting from register value `p`, with a configured target chat `t`;
one `TickRecord` per fetch. -/
def runFrom (t : Int) : Option String → List String → List TickRecord
  | _, [] => []
  | p, s :: rest =>
      let r := status_checker_tick 300 (some "usr_x") cfgCookies (pollOk s) (some t) false p
      ⟨!(sentMessages r.2).isEmpty, r.1⟩ :: runFrom t r.1 rest

/-- The code's notify-on-first-observation policy.  The register starts
unset (`None`) and every fetched state value differs from unset, so the
first successful fetch always produces a notification: the policy is
constantly enabled. -/
def notify_on_first_observation : Bool := true

/-- Spec-side description of one tick's notification decision: on the
first fetch (register still unset) notify per the policy; afterwards
notify exactly when the fetched state differs from the previous one. -/
def specNotify (p : Option String) (s : String) : Bool :=
  match p with
  | none => notify_on_first_observation
  | some q => decide (s ≠ q)

/-- Spec-side transition records: notification per `specNotify`, and the
register holds the fetched state after every successful fetch. -/
def specRun : Option String → List String → List TickRecord
  | _, [] => []
  | p, s :: rest => ⟨specNotify p s, some s⟩ :: specRun (some s) rest

theorem usr_x_nonempty : "usr_x".isEmpty = false := rfl

theorem tick_pollOk_eq (t : Int) (p : Option String) (s : String) :
    status_checker_tick 300 (some "usr_x") cfgCookies (pollOk s) (some t) false p =
      if some s = p then (p, [.fetchAttempt, .sleep 300])
      else (some s,
        [.fetchAttempt, .logInfo ("State changed: " ++ pyShowOpt p ++ " -> " ++ s),
         .sendMessage t
           (if s = "online" then "Игрок теперь ONLINE!\nИмя: usr_x\nСтатус: "
            else "Игрок теперь OFFLINE (state=" ++ s ++ ")"),
         .setLastState (some s), .sleep 300]) := by
  by_cases h : (some s : Option String) = p
  · simp [status_checker_tick, pollOk, cfgCookies, strFalsy, h, usr_x_nonempty]
  · by_cases hs : s = "online" <;>
      simp [status_checker_tick, pollOk, cfgCookies, strFalsy, h, hs, pyShowOpt, usr_x_nonempty]

theorem runFrom_eq_specRun (t : Int) (states : List String) : ∀ (p : Option String),
    runFrom t p states = specRun p states := by
  induction states with
  | nil => intro p; rfl
  | cons s rest ih =>
    intro p
    by_cases h : (some s : Option String) = p
    · subst h
      simp [runFrom, specRun, tick_pollOk_eq, sentMessages, specNotify, ih]
    · cases p with
      | none =>
          simp [runFrom, specRun, tick_pollOk_eq, h, sentMessages, specNotify,
            notify_on_first_observation, ih]
      | some q =>
          have hq : s ≠ q := by intro e; exact h (by rw [e])
          simp [runFrom, specRun, tick_pollOk_eq, h, sentMessages, specNotify, hq, ih]

/-- Claim C1: over every sequence of successfully fetched states, the
poller emits a state-change notification exactly for each fetch whose
state differs from the register value recorded immediately before that
fetch — for the very first fetch (register still unset) per the
notify-on-first-observation policy, which in this code is constantly
enabled — and the register equals the fetched state after every
successful fetch. -/
theorem C1_change_detection (t : Int) (p : Option String) (states : List String) :
    runFrom t p states = specRun p states :=
  runFrom_eq_specRun t states p

/-- Claim C2 is false on the code: at a concrete changed-state tick
(register "offline", fetch returns state "online", target chat 42) the
message send is initiated strictly before the register update, so the
claimed set-before-send ordering fails. -/
theorem C2_counterexample :
    setBeforeSendB (status_checker_tick 300 (some "usr_x") cfgCookies
      (.ok 200 ⟨some "Bob", some "online", some "playing"⟩ "") (some 42) false
      (some "offline")).2 = false := by decide

/-- Claim C2 as amended: within every changed-state iteration with a
configured target, the notification send is initiated strictly before the
register update (the code updates `_last_state` only after the send). -/
theorem C2_amended_send_before_set (t : Int) (d s st text : String) (p : Option String)
    (sendFails : Bool) (h : some s ≠ p) :
    sendBeforeSetB (status_checker_tick 300 (some "usr_x") cfgCookies
      (.ok 200 ⟨some d, some s, some st⟩ text) (some t) sendFails p).2 = true := by
  by_cases hs : s = "online"
  · subst hs
    cases sendFails <;>
      simp [status_checker_tick, cfgCookies, strFalsy, usr_x_nonempty, h,
        sendBeforeSetB, firstIdx, isSend, isSetState]
  · cases sendFails <;>
      simp [status_checker_tick, cfgCookies, strFalsy, usr_x_nonempty, h, hs,
        sendBeforeSetB, firstIdx, isSend, isSetState]

/-- Witness for the amended claim C2 at a concrete changed-state tick. -/
theorem C2_amended_witness :
    (some "online" : Option String) ≠ some "offline" ∧
    sendBeforeSetB (status_checker_tick 300 (some "usr_x") cfgCookies
      (.ok 200 ⟨some "Bob", some "online", some "playing"⟩ "") (some 7) false
      (some "offline")).2 = true :=
  ⟨by decide,
   C2_amended_send_before_set 7 "Bob" "online" "playing" "" (some "offline") false (by decide)⟩

/-- Claim C3 is violated by the code (whose own comment says the 403
warning is sent "однократно", i.e. once): evaluated at two consecutive
403 fetches with a configured target chat, the operator warning is handed
to the Telegram sender on both ticks, not at most once. -/
theorem C3_warning_sent_every_403_tick :
    sentMessages (status_checker_tick 300 (some "usr_x") cfgCookies
      (.ok 403 ⟨none, none, none⟩ "denied") (some 42) false none).2 = [warn403Msg] ∧
    sentMessages (status_checker_tick 300 (some "usr_x") cfgCookies
      (.ok 403 ⟨none, none, none⟩ "denied") (some 42) false
      (status_checker_tick 300 (some "usr_x") cfgCookies
        (.ok 403 ⟨none, none, none⟩ "denied") (some 42) false none).1).2 = [warn403Msg] := by
  constructor <;> decide

/-- Claim C4: on every iteration whose fetch returns HTTP 403 a warning is
logged, the register is left unchanged, and the loop waits exactly the
full poll interval before the next tick. -/
theorem C4_auth_rejected (pollInterval : Nat) (u : String)
    (cookies : List (String × String)) (body : ApiJson) (text : String)
    (tgt : Option Int) (sendFails : Bool) (prev : Option String)
    (hu : u.isEmpty = false) (hc : cookies.isEmpty = false) :
    (status_checker_tick pollInterval (some u) cookies (.ok 403 body text)
        tgt sendFails prev).1 = prev ∧
    Event.logWarning ("VRChat API response 403: " ++ truncate403 text) ∈
      (status_checker_tick pollInterval (some u) cookies (.ok 403 body text)
        tgt sendFails prev).2 ∧
    sleepsOf (status_checker_tick pollInterval (some u) cookies (.ok 403 body text)
        tgt sendFails prev).2 = [pollInterval] := by
  cases tgt <;> cases sendFails <;>
    simp [status_checker_tick, strFalsy, hu, hc, sleepsOf]

/-- Witness for claim C4 at a concrete 403 iteration. -/
theorem C4_auth_rejected_witness :
    "usr_x".isEmpty = false ∧ cfgCookies.isEmpty = false ∧
    ((status_checker_tick 300 (some "usr_x") cfgCookies (.ok 403 ⟨none, none, none⟩ "denied")
        (some 42) false (some "online")).1 = some "online" ∧
     Event.logWarning ("VRChat API response 403: " ++ truncate403 "denied") ∈
       (status_checker_tick 300 (some "usr_x") cfgCookies (.ok 403 ⟨none, none, none⟩ "denied")
         (some 42) false (some "online")).2 ∧
     sleepsOf (status_checker_tick 300 (some "usr_x") cfgCookies
         (.ok 403 ⟨none, none, none⟩ "denied") (some 42) false (some "online")).2 = [300]) :=
  ⟨rfl, rfl, C4_auth_rejected 300 "usr_x" cfgCookies ⟨none, none, none⟩ "denied"
    (some 42) false (some "online") rfl rfl⟩

/-- Claim C5 is false on the code: at a 200 response whose body lacks the
state field, the poller stores the null value in the register, not the
claimed "unknown" default. -/
theorem C5_counterexample :
    (status_checker_tick 300 (some "usr_x") cfgCookies
        (.ok 200 ⟨some "Bob", none, none⟩ "") (some 42) false (some "online")).1 = none ∧
    (status_checker_tick 300 (some "usr_x") cfgCookies
        (.ok 200 ⟨some "Bob", none, none⟩ "") (some 42) false (some "online")).1
      ≠ some "unknown" := by decide

/-- Claim C5 as amended: on a 200 response with all three fields missing,
both paths complete the iteration instead of failing;
`check_status_blocking` substitutes "unknown" for the missing state, "N/A"
for the missing display name and "" for the missing status, while the
poller substitutes no default for the missing state (it carries the null
value, printed "None", into the register and the message). -/
theorem C5_amended_defaults (u : String) (text : String) (t : Int)
    (hu : u.isEmpty = false) :
    check_status_blocking (some u) cfgCookies (.ok 200 ⟨none, none, none⟩ text) =
      ⟨"User N/A (" ++ u ++ "): state=unknown, status=", true⟩ ∧
    (status_checker_tick 300 (some u) cfgCookies (.ok 200 ⟨none, none, none⟩ text)
        (some t) false (some "online")).1 = none ∧
    sentMessages (status_checker_tick 300 (some u) cfgCookies
        (.ok 200 ⟨none, none, none⟩ text) (some t) false (some "online")).2 =
      ["Игрок теперь OFFLINE (state=None)"] := by
  refine ⟨?_, ?_, ?_⟩ <;>
    simp [check_status_blocking, status_checker_tick, cfgCookies, strFalsy, hu,
      pyShowOpt, sentMessages, String.append_assoc]

/-- Witness for the amended claim C5 at a concrete input. -/
theorem C5_amended_witness :
    "usr_x".isEmpty = false ∧
    (check_status_blocking (some "usr_x") cfgCookies (.ok 200 ⟨none, none, none⟩ "") =
      ⟨"User N/A (" ++ "usr_x" ++ "): state=unknown, status=", true⟩ ∧
    (status_checker_tick 300 (some "usr_x") cfgCookies (.ok 200 ⟨none, none, none⟩ "")
        (some 42) false (some "online")).1 = none ∧
    sentMessages (status_checker_tick 300 (some "usr_x") cfgCookies
        (.ok 200 ⟨none, none, none⟩ "") (some 42) false (some "online")).2 =
      ["Игрок теперь OFFLINE (state=None)"]) :=
  ⟨rfl, C5_amended_defaults "usr_x" "" 42 rfl⟩

/-- Claim C6 is false on the code: for a changed state that is not the
online sentinel (register "online", fetch returns state "active",
displayName "Bob"), the message handed to the notifier is
"Игрок теперь OFFLINE (state=active)", which does not contain the fetched
display name. -/
theorem C6_counterexample :
    sentMessages (status_checker_tick 300 (some "usr_x") cfgCookies
        (.ok 200 ⟨some "Bob", some "active", some "x"⟩ "") (some 42) false
        (some "online")).2 = ["Игрок теперь OFFLINE (state=active)"] ∧
    strContains "Игрок теперь OFFLINE (state=active)" "Bob" = false := by decide

/-- Claim C6 as amended: on a changed state the notifier receives exactly
one message; when the new state equals the online sentinel it is
"Игрок теперь ONLINE!" followed by the display name and the status (so it
contains the display name and the marker ONLINE), otherwise it is
"Игрок теперь OFFLINE (state=state)", which carries the state but not the
display name; in particular for the Bob example the sent message contains
"Bob" and "ONLINE" (uppercase; the lowercase word "online" does not occur
in it). -/
theorem C6_amended_message_shapes (t : Int) (d s st : String) (p : Option String)
    (h : some s ≠ p) :
    sentMessages (status_checker_tick 300 (some "usr_x") cfgCookies
        (.ok 200 ⟨some d, some s, some st⟩ "") (some t) false p).2 =
      [if s = "online" then "Игрок теперь ONLINE!\nИмя: " ++ d ++ "\nСтатус: " ++ st
       else "Игрок теперь OFFLINE (state=" ++ s ++ ")"] ∧
    strContains ((sentMessages (status_checker_tick 300 (some "usr_x") cfgCookies
        (.ok 200 ⟨some "Bob", some "online", some "playing"⟩ "") (some 42) false
        (some "offline")).2).headD "") "Bob" = true ∧
    strContains ((sentMessages (status_checker_tick 300 (some "usr_x") cfgCookies
        (.ok 200 ⟨some "Bob", some "online", some "playing"⟩ "") (some 42) false
        (some "offline")).2).headD "") "ONLINE" = true := by
  refine ⟨?_, by decide, by decide⟩
  by_cases hs : s = "online"
  · subst hs
    simp [status_checker_tick, cfgCookies, strFalsy, usr_x_nonempty, h, sentMessages]
  · simp [status_checker_tick, cfgCookies, strFalsy, usr_x_nonempty, h, hs,
      sentMessages, pyShowOpt]

/-- Witness for the amended claim C6 at the Bob transition. -/
theorem C6_amended_witness :
    (some "online" : Option String) ≠ some "offline" ∧
    (sentMessages (status_checker_tick 300 (some "usr_x") cfgCookies
        (.ok 200 ⟨some "Bob", some "online", some "playing"⟩ "") (some 42) false
        (some "offline")).2 =
      [if "online" = "online" then
        "Игрок теперь ONLINE!\nИмя: " ++ "Bob" ++ "\nСтатус: " ++ "playing"
       else "Игрок теперь OFFLINE (state=" ++ "online" ++ ")"] ∧
    strContains ((sentMessages (status_checker_tick 300 (some "usr_x") cfgCookies
        (.ok 200 ⟨some "Bob", some "online", some "playing"⟩ "") (some 42) false
        (some "offline")).2).headD "") "Bob" = true ∧
    strContains ((sentMessages (status_checker_tick 300 (some "usr_x") cfgCookies
        (.ok 200 ⟨some "Bob", some "online", some "playing"⟩ "") (some 42) false
        (some "offline")).2).headD "") "ONLINE" = true) :=
  ⟨by decide, C6_amended_message_shapes 42 "Bob" "online" "playing" (some "offline") (by decide)⟩

/-- Claim C7 is false as stated: with the poll interval configured to 5
seconds and no tracked identity, the idle wait is the fixed 5 seconds,
which is not strictly shorter than the configured poll interval. -/
theorem C7_counterexample :
    sleepsOf (status_checker_tick 5 none cfgCookies (pollOk "online") (some 42) false
        (some "x")).2 = [5] ∧
    ¬ (∀ w ∈ sleepsOf (status_checker_tick 5 none cfgCookies (pollOk "online") (some 42)
        false (some "x")).2, w < 5) := by decide

/-- Claim C7 as amended: on every tick with the tracked identity absent or
the credential set empty, the iteration performs no fetch and does not
crash, leaves the register unchanged, and waits a fixed 5-second idle
interval — strictly shorter than the poll interval whenever the configured
poll interval exceeds 5 seconds (as the default 300 does). -/
theorem C7_amended_waiting_for_config (pollInterval : Nat) (uid : Option String)
    (cookies : List (String × String)) (fetch : FetchResult) (tgt : Option Int)
    (sendFails : Bool) (prev : Option String)
    (h : strFalsy uid = true ∨ cookies = []) (hp : 5 < pollInterval) :
    status_checker_tick pollInterval uid cookies fetch tgt sendFails prev =
      (prev, [.logDebug "No user_id or cookies yet; sleeping", .sleep 5]) ∧
    (∀ w ∈ sleepsOf (status_checker_tick pollInterval uid cookies fetch tgt
        sendFails prev).2, w < pollInterval) := by
  have hcond : (strFalsy uid || cookies.isEmpty) = true := by
    rcases h with h | h
    · simp [h]
    · simp [h]
  refine ⟨by simp [status_checker_tick, hcond], ?_⟩
  intro w hw
  simp [status_checker_tick, hcond, sleepsOf] at hw
  omega

/-- Witness for the amended claim C7 with no identity configured. -/
theorem C7_amended_witness :
    (strFalsy none = true ∨ cfgCookies = []) ∧ 5 < 300 ∧
    (status_checker_tick 300 none cfgCookies (pollOk "online") (some 42) false (some "x") =
      (some "x", [.logDebug "No user_id or cookies yet; sleeping", .sleep 5]) ∧
    (∀ w ∈ sleepsOf (status_checker_tick 300 none cfgCookies (pollOk "online") (some 42)
        false (some "x")).2, w < 300)) :=
  ⟨Or.inl rfl, by decide,
   C7_amended_waiting_for_config 300 none cfgCookies (pollOk "online") (some 42) false
     (some "x") (Or.inl rfl) (by decide)⟩

/-- Claim C8: `check_status_blocking` with no stored identity (or an empty
stored identity) returns the not-configured message without performing a
network fetch; with a configured identity it returns a descriptive failure
string when the fetch raises and when the API answers non-200 — an
exception never escapes to the caller. -/
theorem C8_check_status_no_identity (cookies : List (String × String))
    (f : FetchResult) (e : String) :
    check_status_blocking none cookies f =
      ⟨"User ID не задан. Используй /set_user_id <id>", false⟩ ∧
    check_status_blocking (some "") cookies f =
      ⟨"User ID не задан. Используй /set_user_id <id>", false⟩ ∧
    (check_status_blocking (some "usr_x") cfgCookies (.exn e)).message =
      "Исключение при обращении к API: " ++ e ∧
    (check_status_blocking (some "usr_x") cfgCookies (.exn e)).fetchPerformed = true ∧
    check_status_blocking (some "usr_x") cfgCookies (.ok 500 ⟨none, none, none⟩ "boom") =
      ⟨"Ошибка API 500: boom", true⟩ := by
  refine ⟨rfl, rfl, rfl, rfl, ?_⟩
  simp only [check_status_blocking, String.take_eq]
  decide

theorem heartbeat_run_length (P : Nat) (tg : Option Int) :
    ∀ (iters : List (Option String × String)),
      (heartbeat_run P tg iters).length = iters.length := by
  intro iters
  induction iters with
  | nil => rfl
  | cons pr rest ih => cases pr; simp [heartbeat_run, ih]

theorem heartbeat_run_getD (P : Nat) (tg : Option Int) :
    ∀ (iters : List (Option String × String)) (i : Nat), i < iters.length →
      (heartbeat_run P tg iters).getD i [] =
        heartbeat_tick P tg (iters.getD i (none, "")).1 (iters.getD i (none, "")).2 := by
  intro iters
  induction iters with
  | nil => intro i hi; exact absurd hi (by simp)
  | cons pr rest ih =>
      intro i hi
      cases pr with
      | mk er nw =>
          cases i with
          | zero => rfl
          | succ j =>
              have hj : j < rest.length := by simpa using hi
              simpa [heartbeat_run] using ih j hj

/-- Claim C9: the heartbeat loop processes every iteration (its trace has
one entry per iteration — no sequence of notifier failures terminates it),
each iteration logs the timestamped liveness message, and an iteration
whose notifier send raises logs that failure individually and the loop
still proceeds. -/
theorem C9_heartbeat_loop (P : Nat) (t : Int)
    (iters : List (Option String × String)) (i j : Nat) (e nowi nowj : String)
    (erj : Option String)
    (hi : i < iters.length) (hvi : iters.getD i (none, "") = (some e, nowi))
    (hj : j < iters.length) (hvj : iters.getD j (none, "") = (erj, nowj)) :
    (heartbeat_run P (some t) iters).length = iters.length ∧
    Event.logInfo ("?? Heartbeat: бот активен, проверка выполняется. (" ++ nowj ++ ")")
      ∈ (heartbeat_run P (some t) iters).getD j [] ∧
    Event.sendMessage t ("?? Heartbeat: бот активен, проверка выполняется. (" ++ nowi ++ ")")
      ∈ (heartbeat_run P (some t) iters).getD i [] ∧
    Event.logWarning ("Не удалось отправить heartbeat в Telegram: " ++ e)
      ∈ (heartbeat_run P (some t) iters).getD i [] := by
  refine ⟨heartbeat_run_length P (some t) iters, ?_, ?_, ?_⟩
  · rw [heartbeat_run_getD P (some t) iters j hj, hvj]
    cases erj <;> simp [heartbeat_tick]
  · rw [heartbeat_run_getD P (some t) iters i hi, hvi]
    simp [heartbeat_tick]
  · rw [heartbeat_run_getD P (some t) iters i hi, hvi]
    simp [heartbeat_tick]

/-- Witness for claim C9: a two-iteration run whose first send raises. -/
theorem C9_heartbeat_loop_witness :
    (0 < ([(some "boom", "t1"), (none, "t2")] :
        List (Option String × String)).length ∧
     [(some "boom", "t1"), (none, "t2")].getD 0 (none, "") =
        ((some "boom" : Option String), "t1") ∧
     1 < ([(some "boom", "t1"), (none, "t2")] :
        List (Option String × String)).length ∧
     [(some "boom", "t1"), (none, "t2")].getD 1 (none, "") =
        ((none : Option String), "t2")) ∧
    ((heartbeat_run 1800 (some 42) [(some "boom", "t1"), (none, "t2")]).length = 2 ∧
     Event.logInfo ("?? Heartbeat: бот активен, проверка выполняется. (" ++ "t2" ++ ")")
       ∈ (heartbeat_run 1800 (some 42) [(some "boom", "t1"), (none, "t2")]).getD 1 [] ∧
     Event.sendMessage 42 ("?? Heartbeat: бот активен, проверка выполняется. (" ++ "t1" ++ ")")
       ∈ (heartbeat_run 1800 (some 42) [(some "boom", "t1"), (none, "t2")]).getD 0 [] ∧
     Event.logWarning ("Не удалось отправить heartbeat в Telegram: " ++ "boom")
       ∈ (heartbeat_run 1800 (some 42) [(some "boom", "t1"), (none, "t2")]).getD 0 []) :=
  ⟨⟨by decide, rfl, by decide, rfl⟩,
   C9_heartbeat_loop 1800 42 [(some "boom", "t1"), (none, "t2")] 0 1 "boom" "t1" "t2"
     none (by decide) rfl (by decide) rfl⟩

/-- Claim C10: when a changed state is detected with a resolved target and
the notification send raises, the exception is caught inside the iteration
(the failure is logged), the register is still updated to the new state,
and a following tick fetching the same state emits no further send: the
transition is never re-notified and the failed delivery is lost. -/
theorem C10_send_failure_swallowed (t : Int) (s : String) (p : Option String)
    (h : some s ≠ p) :
    (status_checker_tick 300 (some "usr_x") cfgCookies (pollOk s) (some t) true p).1
        = some s ∧
    Event.logException "Failed to send TG message" ∈
      (status_checker_tick 300 (some "usr_x") cfgCookies (pollOk s) (some t) true p).2 ∧
    (sentMessages (status_checker_tick 300 (some "usr_x") cfgCookies (pollOk s) (some t)
        true p).2).length = 1 ∧
    sentMessages (status_checker_tick 300 (some "usr_x") cfgCookies (pollOk s) (some t)
        false (status_checker_tick 300 (some "usr_x") cfgCookies (pollOk s) (some t)
          true p).1).2 = [] := by
  by_cases hs : s = "online"
  · subst hs
    refine ⟨?_, ?_, ?_, ?_⟩ <;>
      simp [status_checker_tick, pollOk, cfgCookies, strFalsy, usr_x_nonempty, h,
        sentMessages]
  · refine ⟨?_, ?_, ?_, ?_⟩ <;>
      simp [status_checker_tick, pollOk, cfgCookies, strFalsy, usr_x_nonempty, h, hs,
        sentMessages]

/-- Witness for claim C10 at the first observation of "online". -/
theorem C10_send_failure_swallowed_witness :
    (some "online" : Option String) ≠ none ∧
    ((status_checker_tick 300 (some "usr_x") cfgCookies (pollOk "online") (some 42)
        true none).1 = some "online" ∧
    Event.logException "Failed to send TG message" ∈
      (status_checker_tick 300 (some "usr_x") cfgCookies (pollOk "online") (some 42)
        true none).2 ∧
    (sentMessages (status_checker_tick 300 (some "usr_x") cfgCookies (pollOk "online")
        (some 42) true none).2).length = 1 ∧
    sentMessages (status_checker_tick 300 (some "usr_x") cfgCookies (pollOk "online")
        (some 42) false (status_checker_tick 300 (some "usr_x") cfgCookies
          (pollOk "online") (some 42) true none).1).2 = []) :=
  ⟨by decide, C10_send_failure_swallowed 42 "online" none (by decide)⟩
